import Mathlib

/-!
Verification of the core logic of `dashboard.py` (icons-player-tracker):
the status/volume normalization performed by `load_csv_data` and the
`calculate_opportunity_score` heuristic.

Strings are embedded as lists of Unicode codepoints (`List Nat`), so that
Python's `str.strip`, `str.lower`, substring tests (`a in b`) and `float`
parsing become explicit executable functions.  All arithmetic is exact
rational arithmetic (`ℚ`); Python's `round(x, 2)` is modelled by `round2`.
-/

/-- Codepoints of a string literal, used for readable constants. -/
def codes (s : String) : List Nat := s.data.map Char.toNat

/-- ASCII lower-casing of one codepoint, as done by `str.lower` on the
ASCII data in this dataset. -/
def lowerCode (c : Nat) : Nat := if 65 ≤ c ∧ c ≤ 90 then c + 32 else c

/-- Whitespace recognised by `str.strip` (ASCII range). -/
def isWS (c : Nat) : Bool := decide (c = 32 ∨ c = 9 ∨ c = 10 ∨ c = 11 ∨ c = 12 ∨ c = 13)

/-- Python `s.strip()`: drop whitespace from both ends. -/
def pyStrip (l : List Nat) : List Nat := List.rdropWhile isWS (List.dropWhile isWS l)

/-- Python `s.lower()`. -/
def pyLower (l : List Nat) : List Nat := l.map lowerCode

/-- `leadsWith n h` is true when `n` is an initial segment of `h`. -/
def leadsWith : List Nat → List Nat → Bool
  | [], _ => true
  | _ :: _, [] => false
  | a :: as, b :: bs => a == b && leadsWith as bs

/-- Python's substring test `needle in hay` on strings. -/
def hasSub (hay needle : List Nat) : Bool :=
  leadsWith needle hay ||
    (match hay with
     | [] => false
     | _ :: t => hasSub t needle)

/-- ASCII digit test. -/
def isDigit (c : Nat) : Bool := decide (48 ≤ c ∧ c ≤ 57)

/-- Value of a digit string read left to right. -/
def digitsNat (l : List Nat) : Nat := l.foldl (fun a c => a * 10 + (c - 48)) 0

/-- Parse an optional sign followed by a plain decimal number
(`123`, `1.5`, `.5`, `5.`); `none` on anything else.  This is the part of
Python `float(...)` exercised by the dashboard's data. -/
def pyFloatCore (t : List Nat) : Option ℚ :=
  let su : ℚ × List Nat :=
    match t with
    | 45 :: r => (-1, r)
    | 43 :: r => (1, r)
    | _ => (1, t)
  let ip := su.2.takeWhile isDigit
  let rest := su.2.dropWhile isDigit
  match rest with
  | [] => if ip = [] then none else some (su.1 * (digitsNat ip : ℚ))
  | 46 :: fp =>
      if fp.all isDigit ∧ (ip ≠ [] ∨ fp ≠ []) then
        some (su.1 * ((digitsNat ip : ℚ) + (digitsNat fp : ℚ) / 10 ^ fp.length))
      else none
  | _ => none

/-- Python `float(s)` on a string: surrounding whitespace is ignored. -/
def pyFloat (s : List Nat) : Option ℚ := pyFloatCore (pyStrip s)

/-- The synonym table applied by `df['status'].replace({...})`
(dashboard.py lines 66–71): a whole-cell match is rewritten, any other
cell is left as it is. -/
def synMap (s : List Nat) : List Nat :=
  if s = codes "sign" then codes "signed"
  else if s = codes "unsign" then codes "unsigned"
  else if s = codes "signed" then codes "signed"
  else if s = codes "unsigned" then codes "unsigned"
  else s

/-- Per-cell effect of the status cleanup in `load_csv_data`
(dashboard.py lines 63–73): `.str.strip().str.lower()`, then the synonym
`replace`, then `fillna('unsigned')`.  A missing cell (`none`) is left
missing by the string methods and by `replace`, and is then filled. -/
def normStatus (s : Option (List Nat)) : List Nat :=
  match s with
  | none => codes "unsigned"
  | some v => synMap (pyLower (pyStrip v))

/-- A raw CSV cell for a numeric column: a number, a string, or missing. -/
inductive RawVal where
  | num (q : ℚ)
  | str (s : List Nat)
  | missing
deriving DecidableEq

/-- `pd.to_numeric(col, errors='coerce').fillna(0)` on one cell
(dashboard.py lines 55–56). -/
def toNumeric0 (v : RawVal) : ℚ :=
  match v with
  | RawVal.num q => q
  | RawVal.str s => (pyFloat s).getD 0
  | RawVal.missing => 0

/-- One row of the merged CSV, with the columns the dashboard reads. -/
structure SearchRecord where
  actual_player : List Nat
  name_variation : List Nat
  country : List Nat
  search_type : List Nat
  merch_category : Option (List Nat)
  merch_term : Option (List Nat)
  july_2025_volume : RawVal
  has_volume : RawVal
  status : Option (List Nat)
deriving DecidableEq

/-- Row-wise effect of the cleaning steps of `load_csv_data`
(dashboard.py lines 55–73): coerce the two volume columns to numbers with
0 for non-numeric/missing cells, and normalize the status cell. -/
def normalizeRecord (r : SearchRecord) : SearchRecord :=
  { r with
    july_2025_volume := RawVal.num (toNumeric0 r.july_2025_volume)
    has_volume := RawVal.num (toNumeric0 r.has_volume)
    status := some (normStatus r.status) }

/-- The cleaning of `load_csv_data` applied to the loaded table. -/
def normalizeRecords (rows : List SearchRecord) : List SearchRecord :=
  rows.map normalizeRecord

/-- A value found in the `age` field of a player profile: a number or a
string such as a deceased marker. -/
inductive AgeVal where
  | num (a : ℚ)
  | str (s : List Nat)
deriving DecidableEq

/-- One entry of the player reference JSON, as read by
`calculate_opportunity_score` through `row.get(...)`: every enrichment
field may be absent. -/
structure PlayerProfile where
  name : List Nat
  instagram_followers : Option (List Nat)
  team : Option (List Nat)
  previous_teams : Option (List (List Nat))
  nationality : Option (List Nat)
  major_trophies : Option (List (List Nat))
  sport : Option (List Nat)
  position : Option (List Nat)
  age : Option AgeVal
deriving DecidableEq

/-- Search factor (dashboard.py lines 859–863): contributes only when a
positive volume is supplied. -/
def searchSub (vol : Option ℚ) : ℚ :=
  match vol with
  | some v => if 0 < v then min 10 (v / 1000000) else 0
  | none => 0

/-- `'M'` removal done by `instagram.replace('M', '')`. -/
def removeM (s : List Nat) : List Nat := s.filter (fun c => c != 77)

/-- Instagram factor (dashboard.py lines 865–878): misses and parse
failures give 0, otherwise the follower magnitude is bucketed. -/
def instagramSub (ig : Option (List Nat)) : ℚ :=
  let s := ig.getD (codes "N/A")
  if s = codes "N/A" ∨ s = [] then 0
  else
    match pyFloat (removeM s) with
    | some m =>
        if 300 < m then 10 else if 100 < m then 8 else if 50 < m then 6
        else if 10 < m then 4 else if 1 < m then 2 else 1
    | none => 0

/-- Hardcoded elite-club list (dashboard.py lines 882–883). -/
def eliteClubs : List (List Nat) :=
  [codes "Real Madrid", codes "Barcelona", codes "Manchester United",
   codes "Manchester City", codes "Liverpool", codes "Bayern Munich",
   codes "PSG", codes "Chelsea", codes "Arsenal", codes "Inter Miami"]

/-- Hardcoded top-club list (dashboard.py lines 884–885). -/
def topClubs : List (List Nat) :=
  [codes "Tottenham", codes "Inter Milan", codes "AC Milan", codes "Juventus",
   codes "Atletico Madrid", codes "Borussia Dortmund", codes "Roma",
   codes "Napoli", codes "Al Nassr", codes "Al Hilal"]

/-- Current-team factor (dashboard.py lines 887–896): substring match
against the club lists, `Retired` check, default 5. -/
def teamSub (team : Option (List Nat)) : ℚ :=
  let t := team.getD []
  if eliteClubs.any (fun club => hasSub t club) then 10
  else if topClubs.any (fun club => hasSub t club) then 7
  else if hasSub t (codes "Retired") then 3
  else 5

/-- One step of the previous-teams loop (dashboard.py lines 903–907). -/
def prevStep (acc : ℚ) (t : List Nat) : ℚ :=
  if eliteClubs.any (fun club => hasSub t club) then acc + 2
  else if topClubs.any (fun club => hasSub t club) then acc + 1
  else acc

/-- Previous-teams factor (dashboard.py lines 900–909): +2 per elite
match, +1 per top match, capped at 10; an empty or missing list gives 0. -/
def prevSub (prev : Option (List (List Nat))) : ℚ :=
  let ts := prev.getD []
  if ts = [] then 0 else min 10 (ts.foldl prevStep 0)

/-- Hardcoded top-nation list (dashboard.py line 912). -/
def topNations : List (List Nat) :=
  [codes "Brazil", codes "Argentina", codes "France", codes "Germany", codes "Spain"]

/-- Hardcoded good-nation list (dashboard.py line 913). -/
def goodNations : List (List Nat) :=
  [codes "England", codes "Italy", codes "Portugal", codes "Netherlands",
   codes "Belgium", codes "Croatia"]

/-- Nationality factor (dashboard.py lines 915–923): exact membership in
the nation lists, default 5. -/
def natSub (nat : Option (List Nat)) : ℚ :=
  let n := nat.getD []
  if n ∈ topNations then 10 else if n ∈ goodNations then 8 else 5

/-- The trophy string `Ballon d'Or` (written without a literal apostrophe). -/
def ballonDOr : List Nat := codes "Ballon d" ++ (39 :: codes "Or")

/-- Points of one trophy (dashboard.py lines 929–939): the five substring
checks are independent `if`s, so one trophy can score several of them. -/
def trophyPts (t : List Nat) : ℚ :=
  (if hasSub t (codes "World Cup") then 10 else 0)
  + (if hasSub t (codes "Champions League") then 9 else 0)
  + (if hasSub t ballonDOr then 10 else 0)
  + (if hasSub t (codes "Euros") || hasSub t (codes "Copa America") then 6 else 0)
  + (if hasSub t (codes "NBA Championship") then 8 else 0)

/-- Trophy factor (dashboard.py lines 926–941): the summed points are
halved and capped at 10; a missing or empty list or `["N/A"]` gives 0. -/
def trophySub (trophies : Option (List (List Nat))) : ℚ :=
  let ts := trophies.getD []
  if ts = [] ∨ ts = [codes "N/A"] then 0
  else min 10 ((ts.foldl (fun acc t => acc + trophyPts t) 0) / 2)

/-- Sport factor (dashboard.py lines 944–955). -/
def sportSub (sport : Option (List Nat)) : ℚ :=
  let s := sport.getD []
  if s = codes "Football" then 10 else if s = codes "Basketball" then 7
  else if s = codes "Tennis" then 5 else if s = codes "Boxing" then 4 else 3

/-- Position factor (dashboard.py lines 958–971): the football-specific
buckets apply only when the sport field is exactly `Football`; default 5. -/
def posSub (sport : Option (List Nat)) (position : Option (List Nat)) : ℚ :=
  let p := position.getD []
  if sport = some (codes "Football") then
    if [codes "ST", codes "CF", codes "RW", codes "LW"].any (fun x => hasSub p x) then 10
    else if [codes "AM", codes "CAM"].any (fun x => hasSub p x) then 8
    else if hasSub p (codes "CM") then 6
    else if [codes "CB", codes "RB", codes "LB"].any (fun x => hasSub p x) then 4
    else if hasSub p (codes "GK") then 3
    else 5
  else 5

/-- Age factor (dashboard.py lines 974–987): a missing age defaults to
the number 0, which lands in the final `else` band worth 3. -/
def ageSub (age : Option AgeVal) : ℚ :=
  match age.getD (AgeVal.num 0) with
  | AgeVal.num a =>
      if 24 ≤ a ∧ a ≤ 32 then 10 else if 18 ≤ a ∧ a ≤ 23 then 8
      else if 33 ≤ a ∧ a ≤ 38 then 6 else 3
  | AgeVal.str s => if hasSub s (codes "Deceased") then 4 else 0

/-- The nine sub-scores in the order they are accumulated. -/
def subScores (p : PlayerProfile) (vol : Option ℚ) : List ℚ :=
  [searchSub vol, instagramSub p.instagram_followers, teamSub p.team,
   prevSub p.previous_teams, natSub p.nationality, trophySub p.major_trophies,
   sportSub p.sport, posSub p.sport p.position, ageSub p.age]

/-- The nine weights, in the same order (dashboard.py lines 863–988). -/
def scoreWeights : List ℚ := [0.25, 0.15, 0.10, 0.10, 0.08, 0.15, 0.05, 0.05, 0.07]

/-- Python `round(x, 2)` in exact arithmetic. -/
def round2 (q : ℚ) : ℚ := (round (q * 100) : ℤ) / 100

/-- The running total `score` just before the final rounding. -/
def weightedTotal (p : PlayerProfile) (vol : Option ℚ) : ℚ :=
  ((subScores p vol).zip scoreWeights).foldl (fun acc sw => acc + sw.1 * sw.2) 0

/-- `calculate_opportunity_score` (dashboard.py lines 856–990). -/
def calculate_opportunity_score (p : PlayerProfile) (vol : Option ℚ) : ℚ :=
  round2 (weightedTotal p vol)

/-- The profile of the spec's worked scenario (§8). -/
def testProfile : PlayerProfile :=
  { name := codes "Test Player"
    instagram_followers := some (codes "150M")
    team := some (codes "Real Madrid")
    previous_teams := some []
    nationality := some (codes "Brazil")
    major_trophies := some [codes "World Cup"]
    sport := some (codes "Football")
    position := some (codes "ST")
    age := some (AgeVal.num 27) }

/-- A profile with every optional field absent. -/
def emptyProfile : PlayerProfile :=
  { name := codes "Unknown"
    instagram_followers := none
    team := none
    previous_teams := none
    nationality := none
    major_trophies := none
    sport := none
    position := none
    age := none }

theorem lowerCode_idem (c : Nat) : lowerCode (lowerCode c) = lowerCode c := by
  unfold lowerCode
  by_cases h : 65 ≤ c ∧ c ≤ 90
  · rw [if_pos h, if_neg (by omega)]
  · rw [if_neg h, if_neg h]

theorem isWS_lowerCode (c : Nat) : isWS (lowerCode c) = isWS c := by
  unfold lowerCode isWS
  by_cases h : 65 ≤ c ∧ c ≤ 90
  · rw [if_pos h]
    simp only [decide_eq_decide]
    omega
  · rw [if_neg h]

theorem dropWhile_map_eqv (p : Nat → Bool) (f : Nat → Nat) (l : List Nat)
    (hp : ∀ c, p (f c) = p c) :
    (l.map f).dropWhile p = (l.dropWhile p).map f := by
  induction l with
  | nil => rfl
  | cons a t ih =>
      by_cases h : p a = true
      · simp [List.dropWhile_cons, hp, h, ih]
      · simp [List.dropWhile_cons, hp, h]

theorem pyStrip_pyLower (l : List Nat) : pyStrip (pyLower l) = pyLower (pyStrip l) := by
  unfold pyStrip pyLower List.rdropWhile
  rw [dropWhile_map_eqv isWS lowerCode l isWS_lowerCode, ← List.map_reverse,
    dropWhile_map_eqv isWS lowerCode _ isWS_lowerCode, ← List.map_reverse]

theorem pyLower_idem (l : List Nat) : pyLower (pyLower l) = pyLower l := by
  unfold pyLower
  rw [List.map_map]
  exact List.map_congr_left fun c _ => lowerCode_idem c

theorem dropWhile_rdropWhile (p : Nat → Bool) (m : List Nat) (hm : m.dropWhile p = m) :
    (List.rdropWhile p m).dropWhile p = List.rdropWhile p m := by
  rcases h : List.rdropWhile p m with _ | ⟨a, r⟩
  · rfl
  · obtain ⟨t, ht⟩ := (List.rdropWhile_prefix p m)
    rw [h] at ht
    rw [← ht] at hm
    have hpa : ¬ p a = true := by
      have h1 := (List.dropWhile_eq_self_iff).1 hm
      have h0 : 0 < (a :: r ++ t).length := by simp
      simpa using h1 h0
    simp [List.dropWhile_cons, hpa]

theorem pyStrip_idem (l : List Nat) : pyStrip (pyStrip l) = pyStrip l := by
  unfold pyStrip
  rw [dropWhile_rdropWhile isWS _ (List.dropWhile_idempotent _ _), List.rdropWhile_idempotent]

/-- The cleaned form of a status cell is a fixed point of the cleaning. -/
theorem normStatus_fix (s : Option (List Nat)) :
    normStatus (some (normStatus s)) = normStatus s := by
  rcases s with _ | v
  · decide
  · show normStatus (some (synMap (pyLower (pyStrip v)))) = synMap (pyLower (pyStrip v))
    set t := pyLower (pyStrip v) with hT
    have hfix : pyLower (pyStrip t) = t := by
      rw [hT, pyStrip_pyLower, pyStrip_idem, pyLower_idem]
    by_cases h1 : t = codes "sign"
    · rw [synMap, if_pos h1]; decide
    by_cases h2 : t = codes "unsign"
    · rw [synMap, if_neg h1, if_pos h2]; decide
    by_cases h3 : t = codes "signed"
    · rw [synMap, if_neg h1, if_neg h2, if_pos h3]; decide
    by_cases h4 : t = codes "unsigned"
    · rw [synMap, if_neg h1, if_neg h2, if_neg h3, if_pos h4]; decide
    have hsyn : synMap t = t := by rw [synMap, if_neg h1, if_neg h2, if_neg h3, if_neg h4]
    rw [hsyn]
    show synMap (pyLower (pyStrip t)) = t
    rw [hfix, hsyn]

/-- C3 counterexample: the raw status value `Pending` is neither a
synonym nor missing, and the cleanup leaves it as `pending` — not
`unsigned` — so the output is not confined to the set
containing signed and unsigned. -/
theorem status_pending_not_in_binary_set :
    normStatus (some (codes "Pending")) = codes "pending" ∧
    normStatus (some (codes "Pending")) ≠ codes "signed" ∧
    normStatus (some (codes "Pending")) ≠ codes "unsigned" := by
  decide

/-- C3 (amended): the status cleanup lower-cases and trims the cell and
maps the four synonyms sign/signed to `signed` and unsign/unsigned to
`unsigned`; a missing cell becomes `unsigned`; every other value passes
through (trimmed and lower-cased) unchanged, so the output is not always
in the two-element set. -/
theorem status_normalization_cases (v : List Nat) :
    normStatus none = codes "unsigned" ∧
    ((pyLower (pyStrip v) = codes "sign" ∨ pyLower (pyStrip v) = codes "signed") →
      normStatus (some v) = codes "signed") ∧
    ((pyLower (pyStrip v) = codes "unsign" ∨ pyLower (pyStrip v) = codes "unsigned") →
      normStatus (some v) = codes "unsigned") ∧
    (pyLower (pyStrip v) ≠ codes "sign" → pyLower (pyStrip v) ≠ codes "signed" →
     pyLower (pyStrip v) ≠ codes "unsign" → pyLower (pyStrip v) ≠ codes "unsigned" →
      normStatus (some v) = pyLower (pyStrip v)) := by
  refine ⟨rfl, ?_, ?_, ?_⟩
  · rintro (h | h) <;>
      · show synMap (pyLower (pyStrip v)) = _
        rw [h]
        decide
  · rintro (h | h) <;>
      · show synMap (pyLower (pyStrip v)) = _
        rw [h]
        decide
  · intro h1 h2 h3 h4
    show synMap (pyLower (pyStrip v)) = _
    rw [synMap, if_neg h1, if_neg h3, if_neg h2, if_neg h4]

theorem status_normalization_cases_witness :
    (pyLower (pyStrip (codes " SIGN ")) = codes "sign" ∨
      pyLower (pyStrip (codes " SIGN ")) = codes "signed") ∧
    normStatus (some (codes " SIGN ")) = codes "signed" :=
  ⟨Or.inl (by decide),
   (status_normalization_cases (codes " SIGN ")).2.1 (Or.inl (by decide))⟩

/-- C4: the cleaning of `load_csv_data` — status trim/lower-case/synonym
map/missing fill plus numeric coercion of the volume columns with 0 fill
— is idempotent on any record set. -/
theorem normalization_idempotent (rows : List SearchRecord) :
    normalizeRecords (normalizeRecords rows) = normalizeRecords rows := by
  unfold normalizeRecords
  rw [List.map_map]
  refine List.map_congr_left fun r _ => ?_
  show normalizeRecord (normalizeRecord r) = normalizeRecord r
  unfold normalizeRecord
  simp [toNumeric0, normStatus_fix]

/-- C9: loading a single period returns the records unchanged apart from
normalization — the output pairs up with the input row by row (nothing
added or dropped), all columns other than status and the two volume
columns are identical, and status/volume are exactly their normalized
values. -/
theorem single_period_load_frame (rows : List SearchRecord) :
    (normalizeRecords rows).length = rows.length ∧
    List.Forall₂ (fun r r2 =>
      r2.actual_player = r.actual_player ∧ r2.name_variation = r.name_variation ∧
      r2.country = r.country ∧ r2.search_type = r.search_type ∧
      r2.merch_category = r.merch_category ∧ r2.merch_term = r.merch_term ∧
      r2.status = some (normStatus r.status) ∧
      r2.july_2025_volume = RawVal.num (toNumeric0 r.july_2025_volume) ∧
      r2.has_volume = RawVal.num (toNumeric0 r.has_volume))
      rows (normalizeRecords rows) := by
  refine ⟨by simp [normalizeRecords], ?_⟩
  induction rows with
  | nil => exact List.Forall₂.nil
  | cons r t ih =>
      exact List.Forall₂.cons ⟨rfl, rfl, rfl, rfl, rfl, rfl, rfl, rfl, rfl⟩ ih

theorem searchSub_bounds (vol : Option ℚ) : 0 ≤ searchSub vol ∧ searchSub vol ≤ 10 := by
  rcases vol with _ | v
  · norm_num [searchSub]
  · simp only [searchSub]
    by_cases h : 0 < v
    · rw [if_pos h]
      exact ⟨le_min (by norm_num) (by positivity), min_le_left _ _⟩
    · rw [if_neg h]
      norm_num

theorem instagramSub_bounds (ig : Option (List Nat)) :
    0 ≤ instagramSub ig ∧ instagramSub ig ≤ 10 := by
  unfold instagramSub
  dsimp only
  split
  · norm_num
  · split
    · split_ifs <;> norm_num
    · norm_num

theorem teamSub_bounds (team : Option (List Nat)) : 0 ≤ teamSub team ∧ teamSub team ≤ 10 := by
  unfold teamSub
  dsimp only
  split_ifs <;> norm_num

theorem prevStep_ge (acc : ℚ) (t : List Nat) : acc ≤ prevStep acc t := by
  unfold prevStep
  split_ifs <;> linarith

theorem foldl_prevStep_nonneg (l : List (List Nat)) :
    ∀ acc : ℚ, 0 ≤ acc → 0 ≤ l.foldl prevStep acc := by
  induction l with
  | nil => intro acc h; simpa using h
  | cons a t ih => intro acc h; exact ih _ (le_trans h (prevStep_ge acc a))

theorem prevSub_bounds (prev : Option (List (List Nat))) :
    0 ≤ prevSub prev ∧ prevSub prev ≤ 10 := by
  unfold prevSub
  dsimp only
  split
  · norm_num
  · exact ⟨le_min (by norm_num) (foldl_prevStep_nonneg _ 0 le_rfl), min_le_left _ _⟩

theorem natSub_bounds (nat : Option (List Nat)) : 0 ≤ natSub nat ∧ natSub nat ≤ 10 := by
  unfold natSub
  dsimp only
  split_ifs <;> norm_num

theorem trophyPts_nonneg (t : List Nat) : 0 ≤ trophyPts t := by
  unfold trophyPts
  split_ifs <;> norm_num

theorem trophy_foldl_eq (l : List (List Nat)) :
    ∀ acc : ℚ, l.foldl (fun a t => a + trophyPts t) acc = acc + (l.map trophyPts).sum := by
  induction l with
  | nil => intro acc; simp
  | cons a t ih => intro acc; simp [ih]; ring

theorem trophySub_bounds (trophies : Option (List (List Nat))) :
    0 ≤ trophySub trophies ∧ trophySub trophies ≤ 10 := by
  unfold trophySub
  dsimp only
  split
  · norm_num
  · refine ⟨le_min (by norm_num) ?_, min_le_left _ _⟩
    have hs : 0 ≤ (((Option.getD trophies []).map trophyPts).sum) :=
      List.sum_nonneg (by
        intro x hx
        obtain ⟨t, _, rfl⟩ := List.mem_map.1 hx
        exact trophyPts_nonneg t)
    rw [trophy_foldl_eq]
    linarith

theorem sportSub_bounds (sport : Option (List Nat)) :
    0 ≤ sportSub sport ∧ sportSub sport ≤ 10 := by
  unfold sportSub
  dsimp only
  split_ifs <;> norm_num

theorem posSub_bounds (sport position : Option (List Nat)) :
    0 ≤ posSub sport position ∧ posSub sport position ≤ 10 := by
  unfold posSub
  dsimp only
  split_ifs <;> norm_num

theorem ageSub_bounds (age : Option AgeVal) : 0 ≤ ageSub age ∧ ageSub age ≤ 10 := by
  unfold ageSub
  rcases h : age.getD (AgeVal.num 0) with a | s <;> dsimp only <;>
    split_ifs <;> norm_num

theorem weightedTotal_eq (p : PlayerProfile) (vol : Option ℚ) :
    weightedTotal p vol =
      searchSub vol * 0.25 + instagramSub p.instagram_followers * 0.15 +
      teamSub p.team * 0.10 + prevSub p.previous_teams * 0.10 +
      natSub p.nationality * 0.08 + trophySub p.major_trophies * 0.15 +
      sportSub p.sport * 0.05 + posSub p.sport p.position * 0.05 +
      ageSub p.age * 0.07 := by
  simp [weightedTotal, subScores, scoreWeights, List.zip, List.foldl]

theorem round2_bounds {q : ℚ} (h0 : 0 ≤ q) (h1 : q ≤ 10) :
    0 ≤ round2 q ∧ round2 q ≤ 10 := by
  unfold round2
  constructor
  · apply div_nonneg _ (by norm_num)
    have hr : (0:ℤ) ≤ round (q * 100) := by
      rw [round_eq]
      refine Int.floor_nonneg.2 (by linarith)
    exact_mod_cast hr
  · rw [div_le_iff₀ (by norm_num : (0:ℚ) < 100)]
    have hr : round (q * 100) ≤ 1000 := by
      rw [round_eq]
      calc ⌊q * 100 + 1/2⌋ ≤ ⌊(1000.5 : ℚ)⌋ := Int.floor_mono (by linarith)
        _ = 1000 := by norm_num
    calc ((round (q * 100) : ℤ) : ℚ) ≤ (1000 : ℚ) := by exact_mod_cast hr
      _ ≤ 10 * 100 := by norm_num

theorem weightedTotal_bounds (p : PlayerProfile) (vol : Option ℚ) :
    0 ≤ weightedTotal p vol ∧ weightedTotal p vol ≤ 10 := by
  rw [weightedTotal_eq]
  obtain ⟨a1, b1⟩ := searchSub_bounds vol
  obtain ⟨a2, b2⟩ := instagramSub_bounds p.instagram_followers
  obtain ⟨a3, b3⟩ := teamSub_bounds p.team
  obtain ⟨a4, b4⟩ := prevSub_bounds p.previous_teams
  obtain ⟨a5, b5⟩ := natSub_bounds p.nationality
  obtain ⟨a6, b6⟩ := trophySub_bounds p.major_trophies
  obtain ⟨a7, b7⟩ := sportSub_bounds p.sport
  obtain ⟨a8, b8⟩ := posSub_bounds p.sport p.position
  obtain ⟨a9, b9⟩ := ageSub_bounds p.age
  constructor <;> nlinarith

/-- C1: for every profile (any subset of the optional fields present) and
every supplied search volume that is non-negative or absent, the
opportunity score lies in the closed interval from 0 to 10. -/
theorem opportunity_score_in_range (p : PlayerProfile) (vol : Option ℚ)
    (_hv : ∀ v ∈ vol, 0 ≤ v) :
    0 ≤ calculate_opportunity_score p vol ∧ calculate_opportunity_score p vol ≤ 10 := by
  obtain ⟨h0, h1⟩ := weightedTotal_bounds p vol
  exact round2_bounds h0 h1

theorem opportunity_score_in_range_witness :
    (∀ v ∈ (some (5000000 : ℚ)), 0 ≤ v) ∧
    (0 ≤ calculate_opportunity_score testProfile (some 5000000) ∧
      calculate_opportunity_score testProfile (some 5000000) ≤ 10) :=
  ⟨by intro v hv; rw [Option.mem_def, Option.some_inj] at hv; rw [← hv]; norm_num,
   opportunity_score_in_range testProfile (some 5000000)
     (by intro v hv; rw [Option.mem_def, Option.some_inj] at hv; rw [← hv]; norm_num)⟩

/-- C5: the nine scoring weights used by `calculate_opportunity_score`
sum to exactly 1. -/
theorem scoreWeights_sum_one : scoreWeights.length = 9 ∧ scoreWeights.sum = 1 := by
  constructor
  · rfl
  · norm_num [scoreWeights]

theorem instagramSub_none : instagramSub none = 0 := by
  simp [instagramSub]

theorem teamSub_none : teamSub none = 5 := by
  have h1 : (eliteClubs.any fun club => hasSub [] club) = false := by decide
  have h2 : (topClubs.any fun club => hasSub [] club) = false := by decide
  have h3 : hasSub [] (codes "Retired") = false := by decide
  simp [teamSub, h1, h2, h3]

theorem prevSub_none : prevSub none = 0 := by
  simp [prevSub]

theorem natSub_none : natSub none = 5 := by
  have h1 : ¬ ([] : List Nat) ∈ topNations := by decide
  have h2 : ¬ ([] : List Nat) ∈ goodNations := by decide
  simp [natSub, h1, h2]

theorem trophySub_none : trophySub none = 0 := by
  simp [trophySub]

theorem sportSub_none : sportSub none = 3 := by
  have h1 : ([] : List Nat) ≠ codes "Football" := by decide
  have h2 : ([] : List Nat) ≠ codes "Basketball" := by decide
  have h3 : ([] : List Nat) ≠ codes "Tennis" := by decide
  have h4 : ([] : List Nat) ≠ codes "Boxing" := by decide
  simp [sportSub, h1, h2, h3, h4]

theorem posSub_none (sport : Option (List Nat)) : posSub sport none = 5 := by
  have h1 : ([codes "ST", codes "CF", codes "RW", codes "LW"].any fun x => hasSub [] x) = false := by
    decide
  have h2 : ([codes "AM", codes "CAM"].any fun x => hasSub [] x) = false := by decide
  have h3 : hasSub [] (codes "CM") = false := by decide
  have h4 : ([codes "CB", codes "RB", codes "LB"].any fun x => hasSub [] x) = false := by decide
  have h5 : hasSub [] (codes "GK") = false := by decide
  by_cases hs : sport = some (codes "Football") <;>
    simp [posSub, hs, h1, h2, h3, h4, h5]

theorem ageSub_none : ageSub none = 3 := by
  norm_num [ageSub]

theorem searchSub_5M : searchSub (some 5000000) = 5 := by
  simp only [searchSub]
  rw [if_pos (by norm_num), show (5000000 : ℚ) / 1000000 = 5 by norm_num,
    min_eq_right (by norm_num : (5:ℚ) ≤ 10)]

theorem pyFloat_150 : pyFloat (removeM (codes "150M")) = some 150 := by
  have h1 : pyStrip (removeM (codes "150M")) = [49, 53, 48] := by decide
  have h2 : digitsNat [49, 53, 48] = 150 := by decide
  rw [pyFloat, h1]
  simp only [pyFloatCore]
  norm_num [List.takeWhile, List.dropWhile, isDigit, h2]
  exact fun hx => absurd hx (by decide)

theorem instagramSub_150M : instagramSub (some (codes "150M")) = 8 := by
  have hne : ¬ (codes "150M" = codes "N/A" ∨ codes "150M" = []) := by decide
  simp only [instagramSub, Option.getD_some, if_neg hne, pyFloat_150]
  norm_num

theorem teamSub_RealMadrid : teamSub (some (codes "Real Madrid")) = 10 := by
  have h : (eliteClubs.any fun club => hasSub (codes "Real Madrid") club) = true := by decide
  simp [teamSub, h]

theorem prevSub_nil : prevSub (some []) = 0 := by
  simp [prevSub]

theorem natSub_Brazil : natSub (some (codes "Brazil")) = 10 := by
  have h : codes "Brazil" ∈ topNations := by decide
  simp [natSub, h]

theorem trophyPts_WorldCup : trophyPts (codes "World Cup") = 10 := by
  have h1 : hasSub (codes "World Cup") (codes "World Cup") = true := by decide
  have h2 : hasSub (codes "World Cup") (codes "Champions League") = false := by decide
  have h3 : hasSub (codes "World Cup") ballonDOr = false := by decide
  have h4 : (hasSub (codes "World Cup") (codes "Euros") ||
      hasSub (codes "World Cup") (codes "Copa America")) = false := by decide
  have h5 : hasSub (codes "World Cup") (codes "NBA Championship") = false := by decide
  simp [trophyPts, h1, h2, h3, h4, h5]

theorem trophySub_WorldCup : trophySub (some [codes "World Cup"]) = 5 := by
  have hc : ¬ ([codes "World Cup"] = ([] : List (List Nat)) ∨
      [codes "World Cup"] = [codes "N/A"]) := by decide
  simp only [trophySub, Option.getD_some, if_neg hc]
  rw [trophy_foldl_eq]
  simp only [List.map_cons, List.map_nil, List.sum_cons, List.sum_nil, trophyPts_WorldCup]
  rw [show ((0 : ℚ) + (10 + 0)) / 2 = 5 by norm_num, min_eq_right (by norm_num : (5:ℚ) ≤ 10)]

theorem sportSub_Football : sportSub (some (codes "Football")) = 10 := by
  simp [sportSub]

theorem posSub_Football_ST :
    posSub (some (codes "Football")) (some (codes "ST")) = 10 := by
  have h : ([codes "ST", codes "CF", codes "RW", codes "LW"].any
      fun x => hasSub (codes "ST") x) = true := by decide
  simp [posSub, h]

theorem ageSub_27 : ageSub (some (AgeVal.num 27)) = 10 := by
  norm_num [ageSub]

theorem weightedTotal_testProfile :
    weightedTotal testProfile (some 5000000) = 67/10 := by
  rw [weightedTotal_eq]
  simp only [testProfile]
  rw [searchSub_5M, instagramSub_150M, teamSub_RealMadrid, prevSub_nil, natSub_Brazil,
    trophySub_WorldCup, sportSub_Football, posSub_Football_ST, ageSub_27]
  norm_num

theorem score_testProfile :
    calculate_opportunity_score testProfile (some 5000000) = 67/10 := by
  rw [calculate_opportunity_score, weightedTotal_testProfile]
  norm_num [round2, round_eq]

/-- C2 counterexample: on the spec's worked scenario the social sub-score
is 8 (the 150 magnitude falls in the greater-than-100 tier, not the
greater-than-50 tier) and the total is 6.70, so the claimed sub-score 6
and total 6.40 are wrong. -/
theorem testProfile_score_not_claimed :
    instagramSub (some (codes "150M")) ≠ 6 ∧
    calculate_opportunity_score testProfile (some 5000000) ≠ 6.4 := by
  constructor
  · rw [instagramSub_150M]; norm_num
  · rw [score_testProfile]; norm_num

/-- C2 (amended): on the worked scenario the sub-scores are search 5,
social 8, current-team 10, previous-teams 0, nationality 10, trophies 5,
sport 10, position 10, age 10, and the returned score is exactly 6.70. -/
theorem testProfile_score_breakdown :
    searchSub (some 5000000) = 5 ∧
    instagramSub (some (codes "150M")) = 8 ∧
    teamSub (some (codes "Real Madrid")) = 10 ∧
    prevSub (some []) = 0 ∧
    natSub (some (codes "Brazil")) = 10 ∧
    trophySub (some [codes "World Cup"]) = 5 ∧
    sportSub (some (codes "Football")) = 10 ∧
    posSub (some (codes "Football")) (some (codes "ST")) = 10 ∧
    ageSub (some (AgeVal.num 27)) = 10 ∧
    calculate_opportunity_score testProfile (some 5000000) = 6.7 := by
  refine ⟨searchSub_5M, instagramSub_150M, teamSub_RealMadrid, prevSub_nil, natSub_Brazil,
    trophySub_WorldCup, sportSub_Football, posSub_Football_ST, ageSub_27, ?_⟩
  rw [score_testProfile]
  norm_num

/-- C6: the social sub-score is 0 when the field is absent or the value
does not parse, and otherwise is the tier of the parsed magnitude:
over 300 gives 10, over 100 gives 8, over 50 gives 6, over 10 gives 4,
over 1 gives 2, and at most 1 gives 1. -/
theorem instagram_tier_rule :
    instagramSub none = 0 ∧
    (∀ s, pyFloat (removeM s) = none → instagramSub (some s) = 0) ∧
    (∀ s m, pyFloat (removeM s) = some m →
      instagramSub (some s) =
        if 300 < m then 10 else if 100 < m then 8 else if 50 < m then 6
        else if 10 < m then 4 else if 1 < m then 2 else 1) := by
  refine ⟨instagramSub_none, ?_, ?_⟩
  · intro s hp
    by_cases hg : s = codes "N/A" ∨ s = []
    · simp only [instagramSub, Option.getD_some, if_pos hg]
    · simp only [instagramSub, Option.getD_some, if_neg hg, hp]
  · intro s m hp
    have hg : ¬ (s = codes "N/A" ∨ s = []) := by
      rintro (rfl | rfl)
      · rw [show pyFloat (removeM (codes "N/A")) = none from by decide] at hp
        exact Option.noConfusion hp
      · rw [show pyFloat (removeM ([] : List Nat)) = none from by decide] at hp
        exact Option.noConfusion hp
    simp only [instagramSub, Option.getD_some, if_neg hg, hp]

theorem instagram_tier_rule_witness :
    pyFloat (removeM (codes "150M")) = some 150 ∧
    instagramSub (some (codes "150M")) = 8 := by
  refine ⟨pyFloat_150, ?_⟩
  have h := instagram_tier_rule.2.2 (codes "150M") 150 pyFloat_150
  rw [h]
  norm_num

/-- C7: the trophies sub-score is the per-trophy point total halved and
capped at 10, with World Cup worth 10, Champions League 9, Ballon dOr 10,
Euros and Copa America 6, NBA Championship (the league-specific
championship the code knows) 8; a missing, empty, or N/A-only list
scores 0. -/
theorem trophy_rule :
    (∀ ts, ts ≠ [] → ts ≠ [codes "N/A"] →
      trophySub (some ts) = min 10 ((ts.map trophyPts).sum / 2)) ∧
    trophySub none = 0 ∧ trophySub (some []) = 0 ∧ trophySub (some [codes "N/A"]) = 0 ∧
    trophyPts (codes "World Cup") = 10 ∧ trophyPts (codes "Champions League") = 9 ∧
    trophyPts ballonDOr = 10 ∧ trophyPts (codes "Euros") = 6 ∧
    trophyPts (codes "Copa America") = 6 ∧ trophyPts (codes "NBA Championship") = 8 := by
  refine ⟨?_, trophySub_none, by simp [trophySub], ?_, trophyPts_WorldCup, ?_, ?_, ?_, ?_, ?_⟩
  · intro ts h1 h2
    have hc : ¬ (ts = [] ∨ ts = [codes "N/A"]) := by tauto
    simp only [trophySub, Option.getD_some, if_neg hc]
    rw [trophy_foldl_eq]
    norm_num
  · simp [trophySub]
  · have h1 : hasSub (codes "Champions League") (codes "World Cup") = false := by decide
    have h2 : hasSub (codes "Champions League") (codes "Champions League") = true := by decide
    have h3 : hasSub (codes "Champions League") ballonDOr = false := by decide
    have h4 : (hasSub (codes "Champions League") (codes "Euros") ||
        hasSub (codes "Champions League") (codes "Copa America")) = false := by decide
    have h5 : hasSub (codes "Champions League") (codes "NBA Championship") = false := by decide
    simp [trophyPts, h1, h2, h3, h4, h5]
  · have h1 : hasSub ballonDOr (codes "World Cup") = false := by decide
    have h2 : hasSub ballonDOr (codes "Champions League") = false := by decide
    have h3 : hasSub ballonDOr ballonDOr = true := by decide
    have h4 : (hasSub ballonDOr (codes "Euros") ||
        hasSub ballonDOr (codes "Copa America")) = false := by decide
    have h5 : hasSub ballonDOr (codes "NBA Championship") = false := by decide
    simp [trophyPts, h1, h2, h3, h4, h5]
  · have h1 : hasSub (codes "Euros") (codes "World Cup") = false := by decide
    have h2 : hasSub (codes "Euros") (codes "Champions League") = false := by decide
    have h3 : hasSub (codes "Euros") ballonDOr = false := by decide
    have h4 : (hasSub (codes "Euros") (codes "Euros") ||
        hasSub (codes "Euros") (codes "Copa America")) = true := by decide
    have h5 : hasSub (codes "Euros") (codes "NBA Championship") = false := by decide
    simp [trophyPts, h1, h2, h3, h4, h5]
  · have h1 : hasSub (codes "Copa America") (codes "World Cup") = false := by decide
    have h2 : hasSub (codes "Copa America") (codes "Champions League") = false := by decide
    have h3 : hasSub (codes "Copa America") ballonDOr = false := by decide
    have h4 : (hasSub (codes "Copa America") (codes "Euros") ||
        hasSub (codes "Copa America") (codes "Copa America")) = true := by decide
    have h5 : hasSub (codes "Copa America") (codes "NBA Championship") = false := by decide
    simp [trophyPts, h1, h2, h3, h4, h5]
  · have h1 : hasSub (codes "NBA Championship") (codes "World Cup") = false := by decide
    have h2 : hasSub (codes "NBA Championship") (codes "Champions League") = false := by decide
    have h3 : hasSub (codes "NBA Championship") ballonDOr = false := by decide
    have h4 : (hasSub (codes "NBA Championship") (codes "Euros") ||
        hasSub (codes "NBA Championship") (codes "Copa America")) = false := by decide
    have h5 : hasSub (codes "NBA Championship") (codes "NBA Championship") = true := by decide
    simp [trophyPts, h1, h2, h3, h4, h5]

theorem trophy_rule_witness :
    ([codes "World Cup", codes "Champions League"] ≠ ([] : List (List Nat))) ∧
    ([codes "World Cup", codes "Champions League"] ≠ [codes "N/A"]) ∧
    trophySub (some [codes "World Cup", codes "Champions League"]) =
      min 10 (([codes "World Cup", codes "Champions League"].map trophyPts).sum / 2) :=
  ⟨by decide, by decide,
   trophy_rule.1 [codes "World Cup", codes "Champions League"] (by decide) (by decide)⟩

/-- C8: the scorer is total on profiles with missing optional fields —
each absent field makes its sub-score take the explicit default branch
(social 0, team 5, previous teams 0, nationality 5, trophies 0, sport 3,
position 5, age 3), and the returned score is a defined value in the
interval from 0 to 10 for every profile and every supplied volume. -/
theorem scorer_defaults_on_missing (p : PlayerProfile) (vol : Option ℚ) :
    (p.instagram_followers = none → instagramSub p.instagram_followers = 0) ∧
    (p.team = none → teamSub p.team = 5) ∧
    (p.previous_teams = none → prevSub p.previous_teams = 0) ∧
    (p.nationality = none → natSub p.nationality = 5) ∧
    (p.major_trophies = none → trophySub p.major_trophies = 0) ∧
    (p.sport = none → sportSub p.sport = 3) ∧
    (p.position = none → posSub p.sport p.position = 5) ∧
    (p.age = none → ageSub p.age = 3) ∧
    (0 ≤ calculate_opportunity_score p vol ∧ calculate_opportunity_score p vol ≤ 10) := by
  obtain ⟨h0, h1⟩ := weightedTotal_bounds p vol
  refine ⟨fun h => ?_, fun h => ?_, fun h => ?_, fun h => ?_, fun h => ?_, fun h => ?_,
    fun h => ?_, fun h => ?_, round2_bounds h0 h1⟩
  · rw [h]; exact instagramSub_none
  · rw [h]; exact teamSub_none
  · rw [h]; exact prevSub_none
  · rw [h]; exact natSub_none
  · rw [h]; exact trophySub_none
  · rw [h]; exact sportSub_none
  · rw [h]; exact posSub_none p.sport
  · rw [h]; exact ageSub_none

theorem scorer_defaults_on_missing_witness :
    instagramSub emptyProfile.instagram_followers = 0 ∧
    teamSub emptyProfile.team = 5 ∧
    prevSub emptyProfile.previous_teams = 0 ∧
    natSub emptyProfile.nationality = 5 ∧
    trophySub emptyProfile.major_trophies = 0 ∧
    sportSub emptyProfile.sport = 3 ∧
    posSub emptyProfile.sport emptyProfile.position = 5 ∧
    ageSub emptyProfile.age = 3 ∧
    (0 ≤ calculate_opportunity_score emptyProfile none ∧
      calculate_opportunity_score emptyProfile none ≤ 10) := by
  have h := scorer_defaults_on_missing emptyProfile none
  exact ⟨h.1 rfl, h.2.1 rfl, h.2.2.1 rfl, h.2.2.2.1 rfl, h.2.2.2.2.1 rfl,
    h.2.2.2.2.2.1 rfl, h.2.2.2.2.2.2.1 rfl, h.2.2.2.2.2.2.2.1 rfl,
    h.2.2.2.2.2.2.2.2⟩

/-- C10: a profile with every optional field absent and no supplied
volume scores exactly 1.51 — team, nationality, sport and position take
their defaults 5, 5, 3, 5, and the missing age defaults to the number 0,
which lands in the final else band worth 3 rather than 0. -/
theorem empty_profile_score_151 :
    teamSub none = 5 ∧ natSub none = 5 ∧ sportSub none = 3 ∧
    posSub none none = 5 ∧ ageSub none = 3 ∧
    calculate_opportunity_score emptyProfile none = 1.51 := by
  refine ⟨teamSub_none, natSub_none, sportSub_none, posSub_none none, ageSub_none, ?_⟩
  have hw : weightedTotal emptyProfile none = 151/100 := by
    rw [weightedTotal_eq]
    simp only [emptyProfile]
    rw [instagramSub_none, teamSub_none, prevSub_none, natSub_none, trophySub_none,
      sportSub_none, posSub_none, ageSub_none]
    norm_num [searchSub]
  rw [calculate_opportunity_score, hw]
  norm_num [round2, round_eq]
